import Mathlib

/-!
Shallow embedding of the flower-shop simulation core
(`src/flower_shop.py`, class `RealTimeFlowerShop`): the data model, the
simulation step `run_simulation_step`, the pricing function
`get_current_price`, and the recommendation cycle
`generate_recommendations` / `apply_recommendations`.

Python floats are modelled by exact rationals (ℚ), Python ints by ℤ/ℕ.
The two `random.uniform` draws of a step are inputs (`StepEnv`), so every
theorem quantifies over all possible random outcomes.  The wall clock
`current_time` is modelled by a hour counter `time`; `hour = time % 24`
and `weekday = time / 24 % 7`, which is how `datetime + timedelta(hours=1)`
advances those two fields.  The sqlite tables `sales` and `inventory` are
modelled as append-only lists of rows.
-/

namespace FlowerShop

attribute [local semireducible] Rat.mul Rat.add Rat.sub Rat.inv

/-- The four catalog flowers (`self.flowers` keys: Розы, Тюльпаны,
Хризантемы, Герберы). -/
inductive Flower
  | roses
  | tulips
  | chrys
  | gerbera
deriving DecidableEq, Repr

/-- Catalog iteration order (Python dict insertion order). -/
def Flower.all : List Flower := [.roses, .tulips, .chrys, .gerbera]

/-- Unit cost per flower (`self.flowers[f]['cost']`); never written by any
operation of the class. -/
def cost : Flower → ℚ
  | .roses => 80
  | .tulips => 40
  | .chrys => 35
  | .gerbera => 45

/-- Popularity weight per flower (`self.flowers[f]['popularity']`); never
written by any operation of the class. -/
def popularity : Flower → ℚ
  | .roses => 3/10
  | .tulips => 2/10
  | .chrys => 3/20
  | .gerbera => 3/25

/-- Initial `base_price` per flower from the catalog literal. -/
def initBasePrice : Flower → ℚ
  | .roses => 150
  | .tulips => 80
  | .chrys => 70
  | .gerbera => 90

/-- Python `int(q)`: truncation toward zero. -/
def pyTrunc (q : ℚ) : ℤ := Int.tdiv q.num q.den

/-- Python `round(q)`: round half to even (banker's rounding). -/
def pyRound (q : ℚ) : ℤ :=
  let f : ℤ := Int.fdiv q.num q.den
  let r : ℚ := q - (f : ℚ)
  if r < 1/2 then f
  else if 1/2 < r then f + 1
  else if f % 2 = 0 then f else f + 1

/-- Python `round(q, 1)`: round to one decimal place. -/
def pyRound1 (q : ℚ) : ℚ := (pyRound (q * 10) : ℚ) / 10

/-- Reorder category strings: СРОЧНО ЗАКУПИТЬ / ЗАКУПИТЬ / НОРМА. -/
inductive SuggKind
  | urgent
  | restock
  | ok
deriving DecidableEq, Repr

/-- One entry of `current_recommendations['purchase_suggestions']`. -/
structure Suggestion where
  suggestion : SuggKind
  quantity : ℤ
  days_of_supply : ℚ
deriving DecidableEq, Repr

/-- One row of the sqlite `sales` table. -/
structure SaleRow where
  time : ℕ
  flower : Flower
  quantity : ℤ
  price : ℚ
  profit : ℚ
deriving DecidableEq, Repr

/-- One row of the sqlite `inventory` table. -/
structure InvRow where
  time : ℕ
  flower : Flower
  quantity : ℤ
  price : ℚ
deriving DecidableEq, Repr

/-- The mutable state of a `RealTimeFlowerShop` object. -/
structure ShopState where
  budget : ℚ
  daily_customers : ℚ
  base_price : Flower → ℚ
  inventory : Flower → ℤ
  time : ℕ
  today_sales : Flower → ℤ
  today_profit : Flower → ℚ
  today_revenue : ℚ
  optimal_prices : Flower → Option ℚ
  purchase_suggestions : Flower → Option Suggestion
  salesLog : List SaleRow
  invLog : List InvRow

/-- Embedding of `self.current_time.hour`. -/
def hourOf (s : ShopState) : ℕ := s.time % 24

/-- Embedding of `self.current_time.weekday()`. -/
def weekdayOf (s : ShopState) : ℕ := s.time / 24 % 7

/-- Pointwise update of a per-flower map (Python dict item assignment). -/
def upd {α : Type} (g : Flower → α) (f : Flower) (v : α) : Flower → α :=
  fun x => if x = f then v else g x

/-- The state built by `__init__(initial_budget, daily_customers)`; `t0` is
the arbitrary construction time (`datetime.now()`), in hours. -/
def initState (initial_budget daily_customers : ℚ) (t0 : ℕ) : ShopState where
  budget := initial_budget
  daily_customers := daily_customers
  base_price := initBasePrice
  inventory := fun _ => 1000
  time := t0
  today_sales := fun _ => 0
  today_profit := fun _ => 0
  today_revenue := 0
  optimal_prices := fun _ => none
  purchase_suggestions := fun _ => none
  salesLog := []
  invLog := []

/-- Embedding of `get_current_price(flower)`. -/
def get_current_price (s : ShopState) (f : Flower) : ℚ :=
  match s.optimal_prices f with
  | some optimal_price => optimal_price
  | none =>
      if 18 ≤ hourOf s ∧ hourOf s ≤ 19 then s.base_price f * (12/10)
      else s.base_price f

/-- The sparse lookup `hour_multipliers.get(hour, 0.5)`. -/
def hour_multiplier (h : ℕ) : ℚ :=
  if h = 8 then 3/10
  else if h = 12 then 8/10
  else if h = 18 then 1
  else if h = 20 then 1/2
  else 1/2

/-- Embedding of `generate_daily_demand()`; `u1` is the `random.uniform(0.9, 1.1)` draw. -/
def generate_daily_demand (s : ShopState) (u1 : ℚ) : ℤ :=
  let hour_mult := hour_multiplier (hourOf s)
  let weekday_mult : ℚ := if 5 ≤ weekdayOf s then 13/10 else 1
  pyTrunc (s.daily_customers * hour_mult * weekday_mult * u1)

/-- The random draws consumed by one `run_simulation_step` call: `u1` is
`uniform(0.9, 1.1)` of demand generation, `u2 f` is the per-flower
`uniform(0.8, 1.2)` of the demand share. -/
structure StepEnv where
  u1 : ℚ
  u2 : Flower → ℚ

/-- The per-flower body of the sales loop of `run_simulation_step`
(lines 80–102): skip when stock is empty, compute
`possible_sales = min(flower_demand, stock)`, and when positive sell:
decrement stock, bump `today_sales`, `today_profit`, `today_revenue`,
`budget`, and append a `sales` row (`save_sale`). -/
def sellOne (env : StepEnv) (hourly_demand : ℤ) (s : ShopState) (f : Flower) :
    ShopState :=
  if s.inventory f ≤ 0 then s
  else
    let demand_share := popularity f * env.u2 f
    let flower_demand := pyTrunc ((hourly_demand : ℚ) * demand_share)
    let possible_sales := min flower_demand (s.inventory f)
    if 0 < possible_sales then
      let current_price := get_current_price s f
      let c := cost f
      let revenue := current_price * (possible_sales : ℚ)
      let profit := (current_price - c) * (possible_sales : ℚ)
      { s with
        inventory := upd s.inventory f (s.inventory f - possible_sales)
        today_sales := upd s.today_sales f (s.today_sales f + possible_sales)
        today_profit := upd s.today_profit f (s.today_profit f + profit)
        today_revenue := s.today_revenue + revenue
        budget := s.budget + profit
        salesLog := s.salesLog ++
          [⟨s.time, f, possible_sales, current_price, profit⟩] }
    else s

/-- The `optimal_price` computation of `generate_recommendations`
(lines 146–149): 100% markup, clamped to [cost*1.3, cost*3.0], rounded to
the nearest multiple of 10. -/
def optimalPrice (c : ℚ) : ℚ :=
  let p1 := c * 2
  let p2 := max p1 (c * (13/10))
  let p3 := min p2 (c * 3)
  (pyRound (p3 / 10) : ℚ) * 10

/-- The `avg_sales` value of the purchase-suggestion loop (line 156). -/
def avgSales (s : ShopState) (f : Flower) : ℤ :=
  if 8 < hourOf s then s.today_sales f else 10

/-- The `days_of_supply` ratio (line 158). -/
def daysOfSupply (inv avg : ℤ) : ℚ :=
  if 0 < avg then (inv : ℚ) / (avg : ℚ) else 30

/-- One entry of the purchase-suggestion loop of `generate_recommendations`
(lines 154–174). -/
def mkSuggestion (s : ShopState) (f : Flower) : Suggestion :=
  let avg := avgSales s f
  let d := daysOfSupply (s.inventory f) avg
  if d < 2 then ⟨.urgent, avg * 7, pyRound1 d⟩
  else if d < 5 then ⟨.restock, avg * 5, pyRound1 d⟩
  else ⟨.ok, 0, pyRound1 d⟩

/-- Embedding of `generate_recommendations()`: recompute `optimal_prices` (depends only
on cost) and `purchase_suggestions` for every catalog flower. -/
def generate_recommendations (s : ShopState) : ShopState :=
  { s with
    optimal_prices := fun f => some (optimalPrice (cost f))
    purchase_suggestions := fun f => some (mkSuggestion s f) }

/-- First loop of `apply_recommendations` (lines 178–179): commit every
recommended optimal price into the catalog's `base_price`. -/
def applyPrices (s : ShopState) : ShopState :=
  { s with
    base_price := fun f =>
      match s.optimal_prices f with
      | some optimal_price => optimal_price
      | none => s.base_price f }

/-- Body of the second loop of `apply_recommendations` (lines 181–188):
for a flower whose suggestion is urgent or restock, buy the suggested
quantity when `budget >= cost*quantity and quantity > 0`, else no-op. -/
def restockOne (s : ShopState) (f : Flower) : ShopState :=
  match s.purchase_suggestions f with
  | none => s
  | some sg =>
      if sg.suggestion = SuggKind.urgent ∨ sg.suggestion = SuggKind.restock then
        let quantity := sg.quantity
        let c := cost f * (quantity : ℚ)
        if c ≤ s.budget ∧ 0 < quantity then
          { s with
            inventory := upd s.inventory f (s.inventory f + quantity)
            budget := s.budget - c }
        else s
      else s

/-- Embedding of `apply_recommendations()`. -/
def apply_recommendations (s : ShopState) : ShopState :=
  Flower.all.foldl restockOne (applyPrices s)

/-- Embedding of `save_inventory()`: one `inventory` row per catalog flower. -/
def save_inventory (s : ShopState) : ShopState :=
  { s with
    invLog := s.invLog ++
      Flower.all.map (fun f => ⟨s.time, f, s.inventory f, get_current_price s f⟩) }

/-- Embedding of `run_simulation_step()`: advance the clock one hour; if the hour is in
[8, 20) run the sales loop; if the hour is divisible by 4 recompute and
apply recommendations; always persist an inventory snapshot. -/
def run_simulation_step (s : ShopState) (env : StepEnv) : ShopState :=
  let s1 := { s with time := s.time + 1 }
  let s2 :=
    if 8 ≤ hourOf s1 ∧ hourOf s1 < 20 then
      let hourly_demand := generate_daily_demand s1 env.u1
      Flower.all.foldl (sellOne env hourly_demand) s1
    else s1
  let s3 :=
    if hourOf s2 % 4 = 0 then apply_recommendations (generate_recommendations s2)
    else s2
  save_inventory s3

/-! ### Frame and preservation lemmas -/

theorem sellOne_frame (env : StepEnv) (hd : ℤ) (s : ShopState) (f : Flower) :
    (sellOne env hd s f).base_price = s.base_price ∧
    (sellOne env hd s f).optimal_prices = s.optimal_prices ∧
    (sellOne env hd s f).purchase_suggestions = s.purchase_suggestions ∧
    (sellOne env hd s f).invLog = s.invLog ∧
    (sellOne env hd s f).time = s.time ∧
    (sellOne env hd s f).daily_customers = s.daily_customers := by
  unfold sellOne
  split
  · exact ⟨rfl, rfl, rfl, rfl, rfl, rfl⟩
  · dsimp only
    split
    · exact ⟨rfl, rfl, rfl, rfl, rfl, rfl⟩
    · exact ⟨rfl, rfl, rfl, rfl, rfl, rfl⟩

theorem sellFold_frame (env : StepEnv) (hd : ℤ) (l : List Flower) (s : ShopState) :
    (l.foldl (sellOne env hd) s).base_price = s.base_price ∧
    (l.foldl (sellOne env hd) s).optimal_prices = s.optimal_prices ∧
    (l.foldl (sellOne env hd) s).purchase_suggestions = s.purchase_suggestions ∧
    (l.foldl (sellOne env hd) s).invLog = s.invLog ∧
    (l.foldl (sellOne env hd) s).time = s.time ∧
    (l.foldl (sellOne env hd) s).daily_customers = s.daily_customers := by
  induction l generalizing s with
  | nil => exact ⟨rfl, rfl, rfl, rfl, rfl, rfl⟩
  | cons a t ih =>
      rw [List.foldl_cons]
      obtain ⟨h1, h2, h3, h4, h5, h6⟩ := ih (sellOne env hd s a)
      obtain ⟨g1, g2, g3, g4, g5, g6⟩ := sellOne_frame env hd s a
      exact ⟨h1.trans g1, h2.trans g2, h3.trans g3, h4.trans g4, h5.trans g5,
        h6.trans g6⟩

theorem sellOne_inventory_nonneg (env : StepEnv) (hd : ℤ) (s : ShopState)
    (f : Flower) (h : ∀ g, 0 ≤ s.inventory g) :
    ∀ g, 0 ≤ (sellOne env hd s f).inventory g := by
  intro g
  unfold sellOne
  split
  · exact h g
  · dsimp only
    split
    · show 0 ≤ upd s.inventory f _ g
      unfold upd
      split
      · next heq =>
          subst heq
          have := min_le_right
            (pyTrunc ((hd : ℚ) * (popularity g * env.u2 g))) (s.inventory g)
          omega
      · exact h g
    · exact h g

theorem sellFold_inventory_nonneg (env : StepEnv) (hd : ℤ) (l : List Flower)
    (s : ShopState) (h : ∀ g, 0 ≤ s.inventory g) :
    ∀ g, 0 ≤ (l.foldl (sellOne env hd) s).inventory g := by
  induction l generalizing s with
  | nil => exact h
  | cons a t ih =>
      rw [List.foldl_cons]
      exact ih (sellOne env hd s a) (sellOne_inventory_nonneg env hd s a h)

theorem restockOne_frame (s : ShopState) (f : Flower) :
    (restockOne s f).base_price = s.base_price ∧
    (restockOne s f).optimal_prices = s.optimal_prices ∧
    (restockOne s f).purchase_suggestions = s.purchase_suggestions ∧
    (restockOne s f).today_sales = s.today_sales ∧
    (restockOne s f).today_profit = s.today_profit ∧
    (restockOne s f).today_revenue = s.today_revenue ∧
    (restockOne s f).salesLog = s.salesLog ∧
    (restockOne s f).invLog = s.invLog ∧
    (restockOne s f).time = s.time ∧
    (restockOne s f).daily_customers = s.daily_customers := by
  unfold restockOne
  split
  · exact ⟨rfl, rfl, rfl, rfl, rfl, rfl, rfl, rfl, rfl, rfl⟩
  · split
    · dsimp only
      split
      · exact ⟨rfl, rfl, rfl, rfl, rfl, rfl, rfl, rfl, rfl, rfl⟩
      · exact ⟨rfl, rfl, rfl, rfl, rfl, rfl, rfl, rfl, rfl, rfl⟩
    · exact ⟨rfl, rfl, rfl, rfl, rfl, rfl, rfl, rfl, rfl, rfl⟩

theorem restockFold_frame (l : List Flower) (s : ShopState) :
    (l.foldl restockOne s).base_price = s.base_price ∧
    (l.foldl restockOne s).optimal_prices = s.optimal_prices ∧
    (l.foldl restockOne s).purchase_suggestions = s.purchase_suggestions ∧
    (l.foldl restockOne s).today_sales = s.today_sales ∧
    (l.foldl restockOne s).today_profit = s.today_profit ∧
    (l.foldl restockOne s).today_revenue = s.today_revenue ∧
    (l.foldl restockOne s).salesLog = s.salesLog ∧
    (l.foldl restockOne s).invLog = s.invLog ∧
    (l.foldl restockOne s).time = s.time ∧
    (l.foldl restockOne s).daily_customers = s.daily_customers := by
  induction l generalizing s with
  | nil =>
      exact ⟨rfl, rfl, rfl, rfl, rfl, rfl, rfl, rfl, rfl, rfl⟩
  | cons a t ih =>
      rw [List.foldl_cons]
      obtain ⟨h1, h2, h3, h4, h5, h6, h7, h8, h9, h10⟩ := ih (restockOne s a)
      obtain ⟨g1, g2, g3, g4, g5, g6, g7, g8, g9, g10⟩ := restockOne_frame s a
      exact ⟨h1.trans g1, h2.trans g2, h3.trans g3, h4.trans g4, h5.trans g5,
        h6.trans g6, h7.trans g7, h8.trans g8, h9.trans g9, h10.trans g10⟩

theorem cost_nonneg (f : Flower) : 0 ≤ cost f := by
  cases f <;> norm_num [cost]

theorem restockOne_inventory_mono (s : ShopState) (f g : Flower) :
    s.inventory g ≤ (restockOne s f).inventory g := by
  unfold restockOne
  split
  · exact le_refl _
  · split
    · dsimp only
      split
      · next sg _ hc =>
          show s.inventory g ≤ upd s.inventory f _ g
          unfold upd
          split
          · next heq => subst heq; omega
          · exact le_refl _
      · exact le_refl _
    · exact le_refl _

theorem restockOne_budget_nonneg (s : ShopState) (f : Flower)
    (h : 0 ≤ s.budget) : 0 ≤ (restockOne s f).budget := by
  unfold restockOne
  split
  · exact h
  · rename_i sg hsg
    split
    · dsimp only
      split
      · rename_i hc
        show (0:ℚ) ≤ s.budget - cost f * (sg.quantity : ℚ)
        linarith [hc.1]
      · exact h
    · exact h

theorem restockOne_budget_le (s : ShopState) (f : Flower) :
    (restockOne s f).budget ≤ s.budget := by
  unfold restockOne
  split
  · exact le_refl _
  · rename_i sg hsg
    split
    · dsimp only
      split
      · rename_i hc
        show s.budget - cost f * (sg.quantity : ℚ) ≤ s.budget
        have hq : (0:ℚ) ≤ (sg.quantity : ℚ) := by
          have := hc.2; exact_mod_cast le_of_lt this
        nlinarith [cost_nonneg f]
      · exact le_refl _
    · exact le_refl _

theorem restockFold_inventory_mono (l : List Flower) (s : ShopState)
    (g : Flower) : s.inventory g ≤ (l.foldl restockOne s).inventory g := by
  induction l generalizing s with
  | nil => exact le_refl _
  | cons a t ih =>
      rw [List.foldl_cons]
      exact le_trans (restockOne_inventory_mono s a g) (ih (restockOne s a))

theorem restockFold_budget_nonneg (l : List Flower) (s : ShopState)
    (h : 0 ≤ s.budget) : 0 ≤ (l.foldl restockOne s).budget := by
  induction l generalizing s with
  | nil => exact h
  | cons a t ih =>
      rw [List.foldl_cons]
      exact ih (restockOne s a) (restockOne_budget_nonneg s a h)

theorem restockFold_budget_le (l : List Flower) (s : ShopState) :
    (l.foldl restockOne s).budget ≤ s.budget := by
  induction l generalizing s with
  | nil => exact le_refl _
  | cons a t ih =>
      rw [List.foldl_cons]
      exact le_trans (ih (restockOne s a)) (restockOne_budget_le s a)

theorem restockFold_inventory_nonneg (l : List Flower) (s : ShopState)
    (h : ∀ g, 0 ≤ s.inventory g) :
    ∀ g, 0 ≤ (l.foldl restockOne s).inventory g :=
  fun g => le_trans (h g) (restockFold_inventory_mono l s g)

theorem step_inventory_nonneg (s : ShopState) (env : StepEnv)
    (h : ∀ g, 0 ≤ s.inventory g) :
    ∀ g, 0 ≤ (run_simulation_step s env).inventory g := by
  unfold run_simulation_step save_inventory apply_recommendations
  dsimp only
  split
  · split
    · exact restockFold_inventory_nonneg _ _
        (sellFold_inventory_nonneg _ _ _ _ h)
    · exact sellFold_inventory_nonneg _ _ _ _ h
  · split
    · exact restockFold_inventory_nonneg _ _ h
    · exact h

theorem genApply_optimal_prices (s : ShopState) :
    (apply_recommendations (generate_recommendations s)).optimal_prices =
      fun f => some (optimalPrice (cost f)) :=
  (restockFold_frame Flower.all (applyPrices (generate_recommendations s))).2.1

theorem genApply_base_price (s : ShopState) :
    (apply_recommendations (generate_recommendations s)).base_price =
      fun f => optimalPrice (cost f) :=
  (restockFold_frame Flower.all (applyPrices (generate_recommendations s))).1

theorem genApply_psugg (s : ShopState) :
    (apply_recommendations (generate_recommendations s)).purchase_suggestions =
      fun f => some (mkSuggestion s f) :=
  (restockFold_frame Flower.all (applyPrices (generate_recommendations s))).2.2.1

theorem genApply_frame (s : ShopState) :
    (apply_recommendations (generate_recommendations s)).today_sales =
      s.today_sales ∧
    (apply_recommendations (generate_recommendations s)).today_profit =
      s.today_profit ∧
    (apply_recommendations (generate_recommendations s)).today_revenue =
      s.today_revenue ∧
    (apply_recommendations (generate_recommendations s)).salesLog = s.salesLog ∧
    (apply_recommendations (generate_recommendations s)).invLog = s.invLog ∧
    (apply_recommendations (generate_recommendations s)).time = s.time := by
  obtain ⟨-, -, -, h4, h5, h6, h7, h8, h9, -⟩ :=
    restockFold_frame Flower.all (applyPrices (generate_recommendations s))
  exact ⟨h4, h5, h6, h7, h8, h9⟩

theorem step_recsTotal (s : ShopState) (env : StepEnv)
    (h : ∀ g, ∃ p, s.optimal_prices g = some p) :
    ∀ g, ∃ p, (run_simulation_step s env).optimal_prices g = some p := by
  intro g
  unfold run_simulation_step save_inventory
  dsimp only
  split
  · split
    · next heq =>
        rw [congrFun (genApply_optimal_prices _) g]
        exact ⟨_, rfl⟩
    · next heq =>
        rw [congrFun (sellFold_frame env _ Flower.all _).2.1 g]
        exact h g
  · split
    · next heq =>
        rw [congrFun (genApply_optimal_prices _) g]
        exact ⟨_, rfl⟩
    · exact h g

theorem foldSteps_inventory_nonneg (envs : List StepEnv) (s : ShopState)
    (h : ∀ g, 0 ≤ s.inventory g) :
    ∀ g, 0 ≤ (envs.foldl run_simulation_step s).inventory g := by
  induction envs generalizing s with
  | nil => exact h
  | cons e t ih =>
      rw [List.foldl_cons]
      exact ih (run_simulation_step s e) (step_inventory_nonneg s e h)

/-! ### The claims -/

/-- Claim C2: for every item, the on-hand inventory quantity is
non-negative in the initial state and remains non-negative after every
finite sequence of simulation steps (for every choice of the random draws):
sales remove at most the current stock and restocks only add. -/
theorem C2_inventory_never_negative (b dc : ℚ) (t0 : ℕ)
    (envs : List StepEnv) :
    (∀ f, 0 ≤ (initState b dc t0).inventory f) ∧
    (∀ f, 0 ≤ (envs.foldl run_simulation_step (initState b dc t0)).inventory f) := by
  constructor
  · intro f
    show (0:ℤ) ≤ 1000
    norm_num
  · exact foldSteps_inventory_nonneg envs (initState b dc t0)
      (fun f => by show (0:ℤ) ≤ 1000; norm_num)

/-- Claim C4: for every catalog item, `generate_recommendations` stores as
optimal price exactly `optimalPrice cost` (cost * 2 clamped to
[cost * 1.3, cost * 3] and rounded to the nearest multiple of 10), and this
value lies in [cost * 1.3, cost * 3] and is an integer multiple of 10. -/
theorem C4_optimal_price_bounds (s : ShopState) (f : Flower) :
    ∃ p, (generate_recommendations s).optimal_prices f = some p ∧
      p = optimalPrice (cost f) ∧
      cost f * (13/10) ≤ p ∧ p ≤ cost f * 3 ∧ ∃ k : ℤ, p = (k : ℚ) * 10 := by
  refine ⟨optimalPrice (cost f), rfl, rfl, ?_, ?_, ?_⟩ <;> cases f
  · decide
  · decide
  · decide
  · decide
  · decide
  · decide
  · decide
  · decide
  · exact ⟨16, by decide⟩
  · exact ⟨8, by decide⟩
  · exact ⟨7, by decide⟩
  · exact ⟨9, by decide⟩

/-- Claim C10: the recommendation cycle is idempotent on prices: running
`generate_recommendations` followed by `apply_recommendations` a second
time, immediately after a first such cycle, leaves every base price and
every entry of the optimal-prices map exactly as the first cycle left
them (the optimal price depends only on the immutable unit cost). -/
theorem C10_price_cycle_idempotent (s : ShopState) :
    (apply_recommendations (generate_recommendations
        (apply_recommendations (generate_recommendations s)))).base_price =
      (apply_recommendations (generate_recommendations s)).base_price ∧
    (apply_recommendations (generate_recommendations
        (apply_recommendations (generate_recommendations s)))).optimal_prices =
      (apply_recommendations (generate_recommendations s)).optimal_prices := by
  constructor
  · rw [genApply_base_price, genApply_base_price]
  · rw [genApply_optimal_prices, genApply_optimal_prices]

/-- Claim C6: `get_current_price` returns the recommended optimal price
whenever an active recommendation exists for the item, regardless of the
hour; otherwise it returns `base_price * 1.2` when the hour is 18 or 19 and
`base_price` at every other hour. -/
theorem C6_current_price (s : ShopState) (f : Flower) :
    (∀ p, s.optimal_prices f = some p → get_current_price s f = p) ∧
    (s.optimal_prices f = none →
      get_current_price s f =
        if hourOf s = 18 ∨ hourOf s = 19 then s.base_price f * (12/10)
        else s.base_price f) := by
  constructor
  · intro p hp
    unfold get_current_price
    rw [hp]
  · intro hp
    unfold get_current_price
    rw [hp]
    by_cases h : 18 ≤ hourOf s ∧ hourOf s ≤ 19
    · rw [if_pos h, if_pos (by omega)]
    · rw [if_neg h, if_neg (by omega)]

/-- State for the C6 witness: hour 18, base price 100, no active
recommendation (the spec's own example). -/
def w6 : ShopState := { initState 0 0 18 with base_price := fun _ => 100 }

/-- State for the C6 witness: an active recommendation of 999 at hour 18. -/
def w6b : ShopState := { w6 with optimal_prices := fun _ => some 999 }

/-- Witness for C6: at hour 18 with no recommendation and base price 100 the
price is 120; with an active recommendation it is that recommendation. -/
theorem C6_current_price_witness :
    get_current_price w6 Flower.roses = 120 ∧
    get_current_price w6b Flower.roses = 999 := by
  constructor
  · have h := (C6_current_price w6 Flower.roses).2 rfl
    rw [h]
    decide
  · exact (C6_current_price w6b Flower.roses).1 999 rfl

/-- Claim C5: for every item, `generate_recommendations` computes
`avg_sales` (the running daily count when the hour exceeds 8, the constant
10 otherwise) and `days_of_supply = inventory / avg_sales` (30 when
`avg_sales = 0`), and then suggests urgent restocking of `avg_sales * 7`
when `days_of_supply < 2`, restocking of `avg_sales * 5` when
`2 ≤ days_of_supply < 5`, and no restocking otherwise. -/
theorem C5_reorder_suggestion (s : ShopState) (f : Flower)
    (hnn : 0 ≤ s.today_sales f) :
    ∃ (avg : ℤ) (d : ℚ) (sg : Suggestion),
      avg = (if 8 < hourOf s then s.today_sales f else 10) ∧
      d = (if avg = 0 then 30 else (s.inventory f : ℚ) / (avg : ℚ)) ∧
      (generate_recommendations s).purchase_suggestions f = some sg ∧
      (d < 2 → sg.suggestion = SuggKind.urgent ∧ sg.quantity = avg * 7) ∧
      (2 ≤ d → d < 5 → sg.suggestion = SuggKind.restock ∧
        sg.quantity = avg * 5) ∧
      (5 ≤ d → sg.suggestion = SuggKind.ok ∧ sg.quantity = 0) := by
  have havg : 0 ≤ avgSales s f := by
    unfold avgSales
    split
    · exact hnn
    · norm_num
  have hd : daysOfSupply (s.inventory f) (avgSales s f) =
      if avgSales s f = 0 then (30:ℚ)
      else (s.inventory f : ℚ) / ((avgSales s f : ℤ) : ℚ) := by
    unfold daysOfSupply
    rcases lt_or_eq_of_le havg with hpos | hzero
    · rw [if_pos hpos, if_neg (by omega)]
    · rw [if_neg (by omega), if_pos hzero.symm]
  refine ⟨avgSales s f, daysOfSupply (s.inventory f) (avgSales s f),
    mkSuggestion s f, rfl, hd, rfl, ?_, ?_, ?_⟩
  · intro h2
    unfold mkSuggestion
    dsimp only
    rw [if_pos h2]
    exact ⟨rfl, rfl⟩
  · intro h2 h5
    unfold mkSuggestion
    dsimp only
    rw [if_neg (by linarith), if_pos h5]
    exact ⟨rfl, rfl⟩
  · intro h5
    unfold mkSuggestion
    dsimp only
    rw [if_neg (by linarith), if_neg (by linarith)]
    exact ⟨rfl, rfl⟩

/-- State for the C5 witness: hour 9, 10 units already sold today and 5 in
stock for every flower (the spec's own urgent example). -/
def w5 : ShopState :=
  { initState 1000000 5000 9 with
      today_sales := fun _ => 10
      inventory := fun _ => 5 }

/-- Witness for C5 at a concrete input: avg 10, half a day of supply,
urgent suggestion of 70 units. -/
theorem C5_reorder_suggestion_witness :
    (0:ℤ) ≤ w5.today_sales Flower.roses ∧
    ∃ (avg : ℤ) (d : ℚ) (sg : Suggestion),
      avg = (if 8 < hourOf w5 then w5.today_sales Flower.roses else 10) ∧
      d = (if avg = 0 then 30
           else (w5.inventory Flower.roses : ℚ) / (avg : ℚ)) ∧
      (generate_recommendations w5).purchase_suggestions Flower.roses =
        some sg ∧
      (d < 2 → sg.suggestion = SuggKind.urgent ∧ sg.quantity = avg * 7) ∧
      (2 ≤ d → d < 5 → sg.suggestion = SuggKind.restock ∧
        sg.quantity = avg * 5) ∧
      (5 ≤ d → sg.suggestion = SuggKind.ok ∧ sg.quantity = 0) :=
  ⟨by decide, C5_reorder_suggestion w5 Flower.roses (by decide)⟩

/-- State for the C1 counterexample: only roses in stock, so the step at
hour 9 executes exactly one sale (750 roses at price 150, cost 80). -/
def c1state : ShopState :=
  { initState 0 5000 8 with
      inventory := fun f => if f = Flower.roses then 1000 else 0 }

/-- Deterministic draws for the C1 counterexample (both uniforms at 1). -/
def c1env : StepEnv := ⟨1, fun _ => 1⟩

/-- Counterexample to claim C1 as stated: in the step from `c1state` a
single sale of 750 roses executes at price 150 and cost 80; the daily
profit counter, the recorded sale profit and the budget all increase by
(150 - 80) * 750 = 52500, but the daily revenue total increases by
150 * 750 = 112500, not by the profit. -/
theorem C1_revenue_counterexample :
    (run_simulation_step c1state c1env).salesLog =
      [⟨9, Flower.roses, 750, 150, (150 - 80) * 750⟩] ∧
    (run_simulation_step c1state c1env).today_profit Flower.roses =
      c1state.today_profit Flower.roses + (150 - 80) * 750 ∧
    (run_simulation_step c1state c1env).budget =
      c1state.budget + (150 - 80) * 750 ∧
    (run_simulation_step c1state c1env).today_revenue ≠
      c1state.today_revenue + (150 - 80) * 750 := by
  refine ⟨by decide, by decide, by decide, by decide⟩

/-- Claim C1 (amended): for every sale executed in the sales loop of
`run_simulation_step` (stock positive and `possible_sales > 0`), with
quantity q, price p and unit cost c, the item's daily profit counter, the
profit recorded in the sale row, and the budget each increase by exactly
(p - c) * q — while the daily revenue total increases by the gross revenue
p * q, not by the profit. -/
theorem C1_sale_deltas (env : StepEnv) (hd : ℤ) (s : ShopState) (f : Flower)
    (hstock : ¬ s.inventory f ≤ 0)
    (hq : 0 < min (pyTrunc ((hd : ℚ) * (popularity f * env.u2 f)))
      (s.inventory f)) :
    ∃ q : ℤ, ∃ p : ℚ,
      q = min (pyTrunc ((hd : ℚ) * (popularity f * env.u2 f)))
        (s.inventory f) ∧
      p = get_current_price s f ∧
      (sellOne env hd s f).today_profit f =
        s.today_profit f + (p - cost f) * (q : ℚ) ∧
      (sellOne env hd s f).salesLog =
        s.salesLog ++ [⟨s.time, f, q, p, (p - cost f) * (q : ℚ)⟩] ∧
      (sellOne env hd s f).budget = s.budget + (p - cost f) * (q : ℚ) ∧
      (sellOne env hd s f).today_revenue = s.today_revenue + p * (q : ℚ) ∧
      (sellOne env hd s f).today_sales f = s.today_sales f + q ∧
      (sellOne env hd s f).inventory f = s.inventory f - q := by
  refine ⟨_, _, rfl, rfl, ?_, ?_, ?_, ?_, ?_, ?_⟩ <;>
    (unfold sellOne; rw [if_neg hstock]; dsimp only; rw [if_pos hq])
  · show upd s.today_profit f _ f = _
    unfold upd
    rw [if_pos rfl]
  · show upd s.today_sales f _ f = _
    unfold upd
    rw [if_pos rfl]
  · show upd s.inventory f _ f = _
    unfold upd
    rw [if_pos rfl]

/-- Witness for the amended C1 at a concrete input: the sale of roses from
`c1state` with hourly demand 2500. -/
theorem C1_sale_deltas_witness :
    (¬ c1state.inventory Flower.roses ≤ 0) ∧
    (0 < min (pyTrunc ((2500 : ℚ) *
        (popularity Flower.roses * c1env.u2 Flower.roses)))
      (c1state.inventory Flower.roses)) ∧
    ∃ q : ℤ, ∃ p : ℚ,
      q = min (pyTrunc ((2500 : ℚ) *
          (popularity Flower.roses * c1env.u2 Flower.roses)))
        (c1state.inventory Flower.roses) ∧
      p = get_current_price c1state Flower.roses ∧
      (sellOne c1env 2500 c1state Flower.roses).today_profit Flower.roses =
        c1state.today_profit Flower.roses +
          (p - cost Flower.roses) * (q : ℚ) ∧
      (sellOne c1env 2500 c1state Flower.roses).salesLog =
        c1state.salesLog ++
          [⟨c1state.time, Flower.roses, q, p,
            (p - cost Flower.roses) * (q : ℚ)⟩] ∧
      (sellOne c1env 2500 c1state Flower.roses).budget =
        c1state.budget + (p - cost Flower.roses) * (q : ℚ) ∧
      (sellOne c1env 2500 c1state Flower.roses).today_revenue =
        c1state.today_revenue + p * (q : ℚ) ∧
      (sellOne c1env 2500 c1state Flower.roses).today_sales Flower.roses =
        c1state.today_sales Flower.roses + q ∧
      (sellOne c1env 2500 c1state Flower.roses).inventory Flower.roses =
        c1state.inventory Flower.roses - q :=
  ⟨by decide, by decide,
    C1_sale_deltas c1env 2500 c1state Flower.roses (by decide) (by decide)⟩

/-- Claim C3: a restock never executes when the budget is below
cost * quantity — the underfunded restock is a silent no-op leaving the
whole state (in particular inventory and budget) unchanged; when the
budget suffices, inventory grows by the suggested quantity and the budget
shrinks by exactly cost * quantity; and a restock never drives a
non-negative budget negative, including across a whole
`apply_recommendations` pass. -/
theorem C3_restock_guard (s : ShopState) (f : Flower) (sg : Suggestion)
    (hs : s.purchase_suggestions f = some sg)
    (hk : sg.suggestion = SuggKind.urgent ∨
      sg.suggestion = SuggKind.restock)
    (hq : 0 ≤ sg.quantity) :
    (s.budget < cost f * (sg.quantity : ℚ) → restockOne s f = s) ∧
    (cost f * (sg.quantity : ℚ) ≤ s.budget →
      (restockOne s f).inventory f = s.inventory f + sg.quantity ∧
      (restockOne s f).budget = s.budget - cost f * (sg.quantity : ℚ)) ∧
    (0 ≤ s.budget → 0 ≤ (restockOne s f).budget) ∧
    (∀ s' : ShopState, 0 ≤ s'.budget →
      0 ≤ (apply_recommendations s').budget) := by
  refine ⟨?_, ?_, restockOne_budget_nonneg s f, ?_⟩
  · intro hlt
    unfold restockOne
    rw [hs]
    dsimp only
    rw [if_pos hk, if_neg]
    rintro ⟨h1, -⟩
    linarith
  · intro hle
    rcases lt_or_eq_of_le hq with hpos | hzero
    · unfold restockOne
      rw [hs]
      dsimp only
      rw [if_pos hk, if_pos ⟨hle, hpos⟩]
      constructor
      · show upd s.inventory f _ f = _
        unfold upd
        rw [if_pos rfl]
      · rfl
    · have h0 : sg.quantity = 0 := hzero.symm
      have hnoop : restockOne s f = s := by
        unfold restockOne
        rw [hs]
        dsimp only
        rw [if_pos hk, if_neg]
        rintro ⟨-, h2⟩
        omega
      rw [hnoop, h0]
      constructor
      · omega
      · push_cast
        ring
  · intro s' h
    unfold apply_recommendations
    exact restockFold_budget_nonneg Flower.all (applyPrices s') h

/-- State for the C3 witness: an urgent suggestion of 70 roses with ample
budget. -/
def w3 : ShopState :=
  { initState 1000000 5000 9 with
      purchase_suggestions := fun _ => some ⟨SuggKind.urgent, 70, 1/2⟩ }

/-- Witness for C3 at a concrete input: restocking 70 roses at cost 80
from a budget of 1000000. -/
theorem C3_restock_guard_witness :
    w3.purchase_suggestions Flower.roses =
      some ⟨SuggKind.urgent, 70, 1/2⟩ ∧
    (SuggKind.urgent = SuggKind.urgent ∨
      SuggKind.urgent = SuggKind.restock) ∧
    (0:ℤ) ≤ (70:ℤ) ∧
    ((w3.budget < cost Flower.roses * ((70:ℤ) : ℚ) →
        restockOne w3 Flower.roses = w3) ∧
      (cost Flower.roses * ((70:ℤ) : ℚ) ≤ w3.budget →
        (restockOne w3 Flower.roses).inventory Flower.roses =
          w3.inventory Flower.roses + 70 ∧
        (restockOne w3 Flower.roses).budget =
          w3.budget - cost Flower.roses * ((70:ℤ) : ℚ)) ∧
      (0 ≤ w3.budget → 0 ≤ (restockOne w3 Flower.roses).budget) ∧
      (∀ s' : ShopState, 0 ≤ s'.budget →
        0 ≤ (apply_recommendations s').budget)) :=
  ⟨rfl, Or.inl rfl, by decide,
    C3_restock_guard w3 Flower.roses ⟨SuggKind.urgent, 70, 1/2⟩ rfl
      (Or.inl rfl) (by decide)⟩

/-- A core operation issued by the driver after construction: one
simulation step, or the manual recommend-and-apply trigger of the app
(`/api/recommendations/apply` runs `generate_recommendations` then
`apply_recommendations`). -/
inductive Op
  | step (env : StepEnv)
  | force

/-- Execute one driver operation. -/
def applyOp (s : ShopState) : Op → ShopState
  | .step env => run_simulation_step s env
  | .force => apply_recommendations (generate_recommendations s)

theorem applyOp_recsTotal (s : ShopState) (op : Op)
    (h : ∀ g, ∃ p, s.optimal_prices g = some p) :
    ∀ g, ∃ p, (applyOp s op).optimal_prices g = some p := by
  cases op with
  | step env => exact step_recsTotal s env h
  | force =>
      intro g
      show ∃ p,
        (apply_recommendations (generate_recommendations s)).optimal_prices g =
          some p
      rw [congrFun (genApply_optimal_prices s) g]
      exact ⟨_, rfl⟩

theorem foldOps_recsTotal (ops : List Op) (s : ShopState)
    (h : ∀ g, ∃ p, s.optimal_prices g = some p) :
    ∀ g, ∃ p, (ops.foldl applyOp s).optimal_prices g = some p := by
  induction ops generalizing s with
  | nil => exact h
  | cons o t ih =>
      rw [List.foldl_cons]
      exact ih (applyOp s o) (applyOp_recsTotal s o h)

/-- Claim C9: once `generate_recommendations` has run once, the
optimal-prices map holds an entry for every catalog item, no core
operation ever removes one, and so in every reachable later state
`get_current_price` returns the recommended price — the hours-18–19 surge
branch is never taken again. -/
theorem C9_recommendation_override_forever (s0 : ShopState)
    (ops : List Op) (f : Flower) :
    ∃ p, (ops.foldl applyOp (generate_recommendations s0)).optimal_prices f =
        some p ∧
      get_current_price (ops.foldl applyOp (generate_recommendations s0)) f =
        p := by
  obtain ⟨p, hp⟩ := foldOps_recsTotal ops (generate_recommendations s0)
    (fun g => ⟨_, rfl⟩) f
  refine ⟨p, hp, ?_⟩
  unfold get_current_price
  rw [hp]

theorem step_decomp (s : ShopState) (env : StepEnv) :
    ∃ s2 : ShopState,
      s2.invLog = s.invLog ∧
      s2.time = s.time + 1 ∧
      s2.optimal_prices = s.optimal_prices ∧
      s2.purchase_suggestions = s.purchase_suggestions ∧
      s2.base_price = s.base_price ∧
      run_simulation_step s env =
        save_inventory
          (if hourOf s2 % 4 = 0 then
            apply_recommendations (generate_recommendations s2)
          else s2) := by
  by_cases hopen : 8 ≤ hourOf {s with time := s.time + 1} ∧
      hourOf {s with time := s.time + 1} < 20
  · refine ⟨Flower.all.foldl
        (sellOne env
          (generate_daily_demand {s with time := s.time + 1} env.u1))
        {s with time := s.time + 1}, ?_, ?_, ?_, ?_, ?_, ?_⟩
    · exact (sellFold_frame _ _ _ _).2.2.2.1
    · exact (sellFold_frame _ _ _ _).2.2.2.2.1
    · exact (sellFold_frame _ _ _ _).2.1
    · exact (sellFold_frame _ _ _ _).2.2.1
    · exact (sellFold_frame _ _ _ _).1
    · unfold run_simulation_step
      dsimp only
      rw [if_pos hopen]
  · refine ⟨{s with time := s.time + 1}, rfl, rfl, rfl, rfl, rfl, ?_⟩
    unfold run_simulation_step
    dsimp only
    rw [if_neg hopen]

/-- Claim C7: every simulation step appends exactly one inventory snapshot
row per catalog item, open or closed; and the step recomputes and
immediately applies recommendations precisely when the post-advance hour
is divisible by 4 (otherwise prices and recommendations are untouched). -/
theorem C7_snapshot_and_cadence (s : ShopState) (env : StepEnv) :
    (∃ rows, (run_simulation_step s env).invLog = s.invLog ++ rows ∧
      rows.map InvRow.flower = Flower.all ∧
      (∀ f : Flower, Flower.all.count f = 1)) ∧
    ((s.time + 1) % 24 % 4 = 0 →
      (run_simulation_step s env).optimal_prices =
        (fun f => some (optimalPrice (cost f))) ∧
      (run_simulation_step s env).base_price =
        (fun f => optimalPrice (cost f)) ∧
      (∀ f, ∃ sg,
        (run_simulation_step s env).purchase_suggestions f = some sg)) ∧
    ((s.time + 1) % 24 % 4 ≠ 0 →
      (run_simulation_step s env).optimal_prices = s.optimal_prices ∧
      (run_simulation_step s env).purchase_suggestions =
        s.purchase_suggestions ∧
      (run_simulation_step s env).base_price = s.base_price) := by
  obtain ⟨s2, hinv, htime, hopt, hps, hbp, heq⟩ := step_decomp s env
  have hh : hourOf s2 = (s.time + 1) % 24 := by
    unfold hourOf
    rw [htime]
  rw [heq]
  by_cases h4 : (s.time + 1) % 24 % 4 = 0
  · rw [if_pos (by rw [hh]; exact h4)]
    have hx : (apply_recommendations (generate_recommendations s2)).invLog =
        s.invLog := ((genApply_frame s2).2.2.2.2.1).trans hinv
    refine ⟨⟨Flower.all.map (fun f =>
        ⟨(apply_recommendations (generate_recommendations s2)).time, f,
          (apply_recommendations (generate_recommendations s2)).inventory f,
          get_current_price
            (apply_recommendations (generate_recommendations s2)) f⟩),
      ?_, ?_, ?_⟩, ?_, ?_⟩
    · show (apply_recommendations (generate_recommendations s2)).invLog ++ _ =
        s.invLog ++ _
      rw [hx]
    · rw [List.map_map]
      exact List.map_id Flower.all
    · intro f
      cases f <;> decide
    · intro _
      refine ⟨genApply_optimal_prices s2, genApply_base_price s2, fun f => ?_⟩
      exact ⟨mkSuggestion s2 f, congrFun (genApply_psugg s2) f⟩
    · intro hne
      exact absurd h4 hne
  · rw [if_neg (by rw [hh]; exact h4)]
    refine ⟨⟨Flower.all.map (fun f =>
        ⟨s2.time, f, s2.inventory f, get_current_price s2 f⟩),
      ?_, ?_, ?_⟩, ?_, ?_⟩
    · show s2.invLog ++ _ = s.invLog ++ _
      rw [hinv]
    · rw [List.map_map]
      exact List.map_id Flower.all
    · intro f
      cases f <;> decide
    · intro hc
      exact absurd hc h4
    · intro _
      exact ⟨hopt, hps, hbp⟩

/-- Claim C8: a step whose post-advance hour is outside [8, 20) performs no
sale: per-item daily sales counts, per-item daily profits, the daily
revenue total and the sales log are unchanged; inventory can only grow and
the budget only shrink (the recommendation-apply restocks), and when the
hour is also not divisible by 4 both are exactly unchanged. -/
theorem C8_closed_hours_frame (s : ShopState) (env : StepEnv)
    (h : ¬(8 ≤ (s.time + 1) % 24 ∧ (s.time + 1) % 24 < 20)) :
    (run_simulation_step s env).today_sales = s.today_sales ∧
    (run_simulation_step s env).today_profit = s.today_profit ∧
    (run_simulation_step s env).today_revenue = s.today_revenue ∧
    (run_simulation_step s env).salesLog = s.salesLog ∧
    (∀ f, s.inventory f ≤ (run_simulation_step s env).inventory f) ∧
    (run_simulation_step s env).budget ≤ s.budget ∧
    ((s.time + 1) % 24 % 4 ≠ 0 →
      (run_simulation_step s env).inventory = s.inventory ∧
      (run_simulation_step s env).budget = s.budget) := by
  have h' : ¬(8 ≤ hourOf {s with time := s.time + 1} ∧
      hourOf {s with time := s.time + 1} < 20) := h
  unfold run_simulation_step
  dsimp only
  rw [if_neg h']
  by_cases h4 : hourOf {s with time := s.time + 1} % 4 = 0
  · rw [if_pos h4]
    obtain ⟨g1, g2, g3, g4, -, -⟩ :=
      genApply_frame {s with time := s.time + 1}
    refine ⟨g1, g2, g3, g4, ?_, ?_, ?_⟩
    · intro f
      exact restockFold_inventory_mono Flower.all
        (applyPrices (generate_recommendations {s with time := s.time + 1})) f
    · exact restockFold_budget_le Flower.all
        (applyPrices (generate_recommendations {s with time := s.time + 1}))
    · intro hne
      exact absurd h4 hne
  · rw [if_neg h4]
    exact ⟨rfl, rfl, rfl, rfl, fun f => le_refl _, le_refl _,
      fun _ => ⟨rfl, rfl⟩⟩

/-- State for the C7 witness whose next hour is 8 (open, divisible by 4). -/
def w7a : ShopState := initState 1000000 5000 7

/-- State for the C7 witness whose next hour is 9 (not divisible by 4). -/
def w7b : ShopState := initState 1000000 5000 8

/-- Witness for C7 at concrete inputs: stepping into hour 8 snapshots one
row per item and installs the recommended prices; stepping into hour 9
leaves the recommendation state untouched. -/
theorem C7_snapshot_and_cadence_witness :
    (∃ rows, (run_simulation_step w7a c1env).invLog = w7a.invLog ++ rows ∧
      rows.map InvRow.flower = Flower.all ∧
      (∀ f : Flower, Flower.all.count f = 1)) ∧
    ((run_simulation_step w7a c1env).optimal_prices =
      fun f => some (optimalPrice (cost f))) ∧
    (run_simulation_step w7b c1env).optimal_prices = w7b.optimal_prices := by
  obtain ⟨ha1, ha2, -⟩ := C7_snapshot_and_cadence w7a c1env
  obtain ⟨-, -, hb3⟩ := C7_snapshot_and_cadence w7b c1env
  exact ⟨ha1, (ha2 (by decide)).1, (hb3 (by decide)).1⟩

/-- State for the C8 witness: next hour is 21, outside [8, 20). -/
def w8 : ShopState := initState 1000000 5000 20

/-- Witness for C8 at a concrete input: the closed-hours step into hour 21
changes none of the sales-related state. -/
theorem C8_closed_hours_frame_witness :
    (¬(8 ≤ (w8.time + 1) % 24 ∧ (w8.time + 1) % 24 < 20)) ∧
    ((run_simulation_step w8 c1env).today_sales = w8.today_sales ∧
      (run_simulation_step w8 c1env).today_profit = w8.today_profit ∧
      (run_simulation_step w8 c1env).today_revenue = w8.today_revenue ∧
      (run_simulation_step w8 c1env).salesLog = w8.salesLog ∧
      (∀ f, w8.inventory f ≤ (run_simulation_step w8 c1env).inventory f) ∧
      (run_simulation_step w8 c1env).budget ≤ w8.budget ∧
      ((w8.time + 1) % 24 % 4 ≠ 0 →
        (run_simulation_step w8 c1env).inventory = w8.inventory ∧
        (run_simulation_step w8 c1env).budget = w8.budget)) :=
  ⟨by decide, C8_closed_hours_frame w8 c1env (by decide)⟩

end FlowerShop
